import Mathlib

/-!
Shallow embedding of the Wavebucks ledger and the Scriba Senatus
market/bounty engine (`WavebucksCore.gs`, `Causae.js`, `DispatchService.js`,
`InboxProcessor.gs`), together with proofs of the behavioural properties
claimed for them.

Modelling conventions:
* JS numbers holding balances, wagers and rewards are modelled as `Int`
  (they are small integers in every code path; JS doubles represent them
  exactly).  The one genuinely fractional computation, the proportional
  payout `Math.floor((winner.wager / totalWinnerWagers) * totalPot)`, is
  modelled over exact rationals `ℚ` with `Rat.floor`.
* Spreadsheet tables become Lean lists in row order; `appendRow` is list
  append, a `findIndex`-then-`setValue` update becomes a first-match
  replacement on the list.
* A thrown JS exception becomes `Except.error`; an engine call that may
  leave partial sheet writes behind before throwing returns the mutated
  state next to the `Except` result.
* Timestamps and `Date` comparisons are modelled with an explicit `now : Int`
  parameter; calendar formatting is ignored.
-/

namespace Wavebucks

/-- Error taxonomy: one constructor per distinct `throw new Error(...)` site
class in the source (the JS code throws plain `Error`s whose messages
distinguish these cases). -/
inductive Err where
  /-- `'Email is required'` in `ensureAccount` / `getBalance` / `credit` / `debit`. -/
  | emailRequired : Err
  /-- `'Credit amount must be positive'` / `'Debit amount must be positive'`. -/
  | invalidAmount : Err
  /-- `'No account found for email: ...'` / `'Account not found for ...'`. -/
  | accountNotFound (email : String) : Err
  /-- `'Causa ${causaId} not found'`. -/
  | causaNotFound (id : Nat) : Err
  /-- `'Causa ${causaId} is ${status}'` / `'Causa ${causaId} already ${status}'`. -/
  | causaNotOpen (status : String) : Err
  /-- `'Invalid option index...'` / `'Invalid winning option...'`. -/
  | invalidOption : Err
  /-- `'Causa ${causaId} has closed'`. -/
  | causaClosed : Err
  /-- `'Minimum wager is ₩${minWager}'`. -/
  | belowMinWager (minW : Nat) : Err
  /-- `'Only creator (${creator}) can resolve this causa'`. -/
  | onlyCreator (creator : String) : Err
  /-- `'Insufficient funds. Your balance: ₩${senderBalance}'` (TRANSFER handler)
  and the spec's `InsufficientFunds` for Commissio creation. -/
  | insufficientFunds (balance : Int) : Err
  /-- A parse failure thrown by the external command parser collaborator. -/
  | parseFailed (msg : String) : Err
  /-- Spec-modelled Commissio engine: unknown commission id. -/
  | commissioNotFound (id : Nat) : Err
  /-- Spec-modelled Commissio engine: `StateError` (wrong lifecycle status). -/
  | commissioWrongState (status : String) : Err
  /-- Spec-modelled Commissio engine: expired task. -/
  | commissioExpired : Err
  /-- Spec-modelled Commissio engine: `AuthError` (completer is not the assignee). -/
  | notAssignee (assignee : String) : Err
deriving DecidableEq, Repr

/-- One row of the append-only `Log` sheet, as appended by `credit` / `debit`
(`[timestamp, email, amount, notes, previousBalance, processed]`; the
timestamp is not modelled).  `delta` is the `Amount` column: the exact value
the code passes to `appendRow`. -/
structure LedgerEntry where
  email : String
  delta : Int
  note : String
  balanceBefore : Int
  processed : Bool
deriving DecidableEq, Repr

/-- The ledger: the `Balances` sheet (email, balance rows, in sheet order)
plus the append-only `Log` sheet. -/
structure Ledger where
  balances : List (String × Int)
  log : List LedgerEntry
deriving DecidableEq, Repr

/-- JS `String.prototype.toUpperCase` restricted to ASCII (the only range
the engine's status strings and emails use), written over the character
list so it evaluates inside the kernel. -/
def toUpperCase (s : String) : String :=
  ⟨s.data.map (fun c =>
    if 97 ≤ c.toNat ∧ c.toNat ≤ 122 then Char.ofNat (c.toNat - 32) else c)⟩

/-- JS `String.prototype.toLowerCase` restricted to ASCII (see
`toUpperCase`). -/
def toLowerCase (s : String) : String :=
  ⟨s.data.map (fun c =>
    if 65 ≤ c.toNat ∧ c.toNat ≤ 90 then Char.ofNat (c.toNat + 32) else c)⟩

/-- Case-insensitive email comparison, as in
`String(row[BAL_EMAIL_COL]).toLowerCase() === email.toLowerCase()`. -/
def emailEq (a b : String) : Bool := toLowerCase a == toLowerCase b

/-- Balance of the first row matching `email` case-insensitively
(the row scan shared by `getBalance`, `credit` and `debit`). -/
def findBalance : List (String × Int) → String → Option Int
  | [], _ => none
  | r :: rest, email => if emailEq r.1 email then some r.2 else findBalance rest email

/-- Overwrite the balance cell of the first row matching `email`
(the `findIndex` + `setValue` pattern of `credit` / `debit`). -/
def setFirstBalance : List (String × Int) → String → Int → List (String × Int)
  | [], _, _ => []
  | r :: rest, email, nb =>
    if emailEq r.1 email then (r.1, nb) :: rest else r :: setFirstBalance rest email nb

/-- `Wavebucks.ensureAccount`: append an `[email, 0, timestamp]` row when no
row matches case-insensitively.  (The `!email` guard is handled by the
callers below; `ensureAccount` is only invoked with the email already
checked, and the standalone call would error the same way.) -/
def ensureAccount (led : Ledger) (email : String) : Ledger :=
  match findBalance led.balances email with
  | some _ => led
  | none => { led with balances := led.balances ++ [(email, 0)] }

/-- `Wavebucks.getBalance`: `'Email is required'` for an empty email, the
first matching row's balance, else `'No account found'`. -/
def getBalance (led : Ledger) (email : String) : Except Err Int :=
  if email = "" then .error .emailRequired
  else
    match findBalance led.balances email with
    | some b => .ok b
    | none => .error (.accountNotFound email)

/-- Convenience for stating balance changes: the balance an account would
have right after `ensureAccount` (its row's balance, or `0` if the account
has never been referenced). -/
def balanceOf (led : Ledger) (email : String) : Int :=
  (findBalance led.balances email).getD 0

/-- `Wavebucks.credit(email, amount, notes)`: guards, `ensureAccount`,
balance update on the first matching row, and a `Log` append whose `Amount`
column is the (positive) `amount`. -/
def credit (led : Ledger) (email : String) (amount : Int) (note : String) :
    Except Err Ledger :=
  if email = "" then .error .emailRequired
  else if amount ≤ 0 then .error .invalidAmount
  else
    let led₁ := ensureAccount led email
    match findBalance led₁.balances email with
    | none => .error (.accountNotFound email)
    | some cur =>
      .ok { balances := setFirstBalance led₁.balances email (cur + amount),
            log := led₁.log ++ [⟨email, amount, note, cur, true⟩] }

/-- `Wavebucks.debit(email, amount, notes)`: identical to `credit` except the
new balance is `cur - amount`.  Note that the `Log` append records `amount`
itself (the code pushes the unsigned `amount`, not `-amount`). -/
def debit (led : Ledger) (email : String) (amount : Int) (note : String) :
    Except Err Ledger :=
  if email = "" then .error .emailRequired
  else if amount ≤ 0 then .error .invalidAmount
  else
    let led₁ := ensureAccount led email
    match findBalance led₁.balances email with
    | none => .error (.accountNotFound email)
    | some cur =>
      .ok { balances := setFirstBalance led₁.balances email (cur - amount),
            log := led₁.log ++ [⟨email, amount, note, cur, true⟩] }

/-- One entry of a Causa's serialized `Votes` array:
`{ email, option, wager }` as pushed by `Causae.vote`. -/
structure Vote where
  email : String
  option : Int
  wager : Int
deriving DecidableEq, Repr

/-- The `Notes` column of a Causa row.  Only the engine writes this cell:
`createCausa` writes `Min wager: ₩N` and `resolveCausa` overwrites it with a
`Resolved: ...` message. -/
inductive CausaNote where
  | minWagerNote (n : Nat) : CausaNote
  | resolvedNote (txt : String) : CausaNote
deriving DecidableEq, Repr

/-- `vote` recovers the minimum wager by matching `/Min wager: ₩(\d+)/`
against the `Notes` cell and defaulting to `1` when the pattern is absent. -/
def minWagerOf : CausaNote → Nat
  | .minWagerNote n => n
  | .resolvedNote _ => 1

/-- One row of the `Causae` sheet:
`[ID, Title, Options, Creator, Status, TotalPot, ClosingDate, Votes, Notes]`
(the JSON-serialized `Options` / `Votes` cells are modelled by the lists
they round-trip to). -/
structure Causa where
  id : Nat
  title : String
  options : List String
  creator : String
  status : String
  totalPot : Int
  closingDate : Int
  votes : List Vote
  notes : CausaNote
deriving DecidableEq, Repr

/-- A Commissio row (spec §3):
`{ id, title, creator, reward, expiry, status, assignee }`
(`createdAt`/`completedAt` timestamps are not modelled). -/
structure Commissio where
  id : Nat
  title : String
  creator : String
  reward : Int
  expiry : Int
  status : String
  assignee : String
deriving DecidableEq, Repr

/-- The engine-visible backing store: the Wavebucks ledger plus the `Causae`
and `Commissiones` sheets (data rows in sheet order). -/
structure EngineState where
  ledger : Ledger
  causae : List Causa
  commissiones : List Commissio
deriving DecidableEq, Repr

/-- `rows.findIndex(r => r[0] === causaId)`, returning the row itself. -/
def lookupCausa (cs : List Causa) (cid : Nat) : Option Causa :=
  cs.find? (fun c => c.id == cid)

/-- Write back the located Causa row: replace the first row whose `ID`
equals `cid` (the `findIndex` + `setValue` pattern of `vote` /
`resolveCausa`). -/
def replaceFirstCausa : List Causa → Nat → Causa → List Causa
  | [], _, _ => []
  | c :: rest, cid, c' =>
    if c.id == cid then c' :: rest else c :: replaceFirstCausa rest cid c'

/-- `Causae.createCausa(creatorEmail, title, options, closingDate, minWager)`:
`nextId = rows.length` (header row included, so the first causa gets id 1),
then one `appendRow` with status `OPEN`, pot `0`, no votes, and the
`Min wager: ₩N` note.  Never throws. -/
def createCausa (creatorEmail title : String) (options : List String)
    (closingDate : Int) (minWager : Nat) (s : EngineState) : EngineState × Nat :=
  let nextId := s.causae.length + 1
  ({ s with causae := s.causae ++
      [{ id := nextId, title := title, options := options,
         creator := creatorEmail, status := "OPEN", totalPot := 0,
         closingDate := closingDate, votes := [],
         notes := .minWagerNote minWager }] },
   nextId)

/-- `Causae.vote(voterEmail, causaId, optionIndex, wager)`.  Checks in source
order: row found, status `OPEN` (after `toUpperCase`), option index in
range, closing date not passed, wager at least the minimum from the notes;
then debits the wager and writes back `TotalPot` and `Votes`.  The state is
returned even on error (no sheet write precedes a throw here, so the state
is unchanged on every error path). -/
def vote (now : Int) (voterEmail : String) (causaId : Nat) (optionIndex : Int)
    (wager : Int) (s : EngineState) : EngineState × Except Err Unit :=
  match lookupCausa s.causae causaId with
  | none => (s, .error (.causaNotFound causaId))
  | some c =>
    let status := toUpperCase c.status
    if status ≠ "OPEN" then (s, .error (.causaNotOpen status))
    else if optionIndex < 0 ∨ (c.options.length : Int) ≤ optionIndex then
      (s, .error .invalidOption)
    else if c.closingDate < now then (s, .error .causaClosed)
    else
      let minW := minWagerOf c.notes
      if wager < (minW : Int) then (s, .error (.belowMinWager minW))
      else
        match debit s.ledger voterEmail wager
            ("Vote on Causa " ++ toString causaId ++ ": " ++ c.title) with
        | .error e => (s, .error e)
        | .ok led' =>
          ({ s with
              ledger := led',
              causae := replaceFirstCausa s.causae causaId
                { c with
                    totalPot := c.totalPot + wager,
                    votes := c.votes ++ [⟨voterEmail, optionIndex, wager⟩] } },
           .ok ())

/-- The value `resolveCausa` returns on success. -/
structure ResolveResult where
  causaId : Nat
  winningOption : String
  totalPot : Int
  winnersCount : Nat
deriving DecidableEq, Repr

/-- The proportional share
`Math.floor((winner.wager / totalWinnerWagers) * totalPot)`: the floor of
the exact rational value of the JS expression (JS evaluates it in binary
floating point; for the integer ranges this system handles the two agree).
For the positive divisors every reachable resolution produces, that floor
is the floor division `(w * pot) / totalW` used here —
`shareOf_eq_ratFloor` below proves the agreement with the literal
`⌊(w / totalW) * pot⌋` reading over `ℚ`. -/
def shareOf (w totalW pot : Int) : Int := (w * pot) / totalW

/-- `shareOf` is exactly the rational reading
`Math.floor((w / totalW) * pot)` whenever the winners' wager total is
positive. -/
theorem shareOf_eq_ratFloor (w pot : Int) {totalW : Int} (h : 0 < totalW) :
    shareOf w totalW pot = ⌊((w : ℚ) / (totalW : ℚ)) * (pot : ℚ)⌋ := by
  have hcast : ((w : ℚ) / (totalW : ℚ)) * (pot : ℚ) =
      ((w * pot : ℤ) : ℚ) / ((totalW.toNat : ℕ) : ℚ) := by
    rw [div_mul_eq_mul_div]
    congr 1
    · push_cast
      ring
    · exact_mod_cast (Int.toNat_of_nonneg h.le).symm
  rw [hcast, Rat.floor_intCast_div_natCast, Int.toNat_of_nonneg h.le]
  rfl

/-- The `winners.forEach(winner => { ...credit(...)... })` loop of
`resolveCausa`: credits each winner's floored share in list order.  A throw
inside the loop aborts it but keeps the credits already made, so the
(partially) mutated ledger is returned next to the error. -/
def creditWinners (cid : Nat) (title : String) (totalW pot : Int) :
    Ledger → List Vote → Ledger × Except Err Unit
  | led, [] => (led, .ok ())
  | led, v :: rest =>
    match credit led v.email (shareOf v.wager totalW pot)
        ("Won Causa " ++ toString cid ++ ": " ++ title) with
    | .error e => (led, .error e)
    | .ok led' => creditWinners cid title totalW pot led' rest

/-- `Causae.resolveCausa(causaId, winningOptionIndex, resolverEmail)`.
Checks in source order: row found, status `OPEN`, resolver is the creator,
winning option in range.  With no winners the whole pot is credited to the
creator; otherwise each winner is credited its floored proportional share.
Only then is the row's `Status` set to `RESOLVED` and the note overwritten,
so an error during crediting leaves the row untouched (but keeps any credits
already written). -/
def resolveCausa (causaId : Nat) (winningOptionIndex : Int)
    (resolverEmail : String) (s : EngineState) :
    EngineState × Except Err ResolveResult :=
  match lookupCausa s.causae causaId with
  | none => (s, .error (.causaNotFound causaId))
  | some c =>
    let status := toUpperCase c.status
    if status ≠ "OPEN" then (s, .error (.causaNotOpen status))
    else if c.creator ≠ resolverEmail then (s, .error (.onlyCreator c.creator))
    else if winningOptionIndex < 0 ∨ (c.options.length : Int) ≤ winningOptionIndex then
      (s, .error .invalidOption)
    else
      let winning := (c.options.get? winningOptionIndex.toNat).getD ""
      let winners := c.votes.filter (fun v => v.option == winningOptionIndex)
      if winners.isEmpty then
        match credit s.ledger c.creator c.totalPot
            ("Causa " ++ toString causaId ++ " resolved - no winners") with
        | .error e => (s, .error e)
        | .ok led' =>
          ({ s with
              ledger := led',
              causae := replaceFirstCausa s.causae causaId
                { c with status := "RESOLVED",
                         notes := .resolvedNote
                           ("Resolved: " ++ winning ++ ". No winners, pot to creator.") } },
           .ok ⟨causaId, winning, c.totalPot, 0⟩)
      else
        let totalW := (winners.map Vote.wager).sum
        match creditWinners causaId c.title totalW c.totalPot s.ledger winners with
        | (led', .error e) => ({ s with ledger := led' }, .error e)
        | (led', .ok _) =>
          ({ s with
              ledger := led',
              causae := replaceFirstCausa s.causae causaId
                { c with status := "RESOLVED",
                         notes := .resolvedNote
                           ("Resolved: " ++ winning ++ ". " ++
                            toString winners.length ++ " winner(s).") } },
           .ok ⟨causaId, winning, c.totalPot, winners.length⟩)

/-- Find a commission row by id (spec-modelled store access). -/
def lookupCommissio (ks : List Commissio) (kid : Nat) : Option Commissio :=
  ks.find? (fun k => k.id == kid)

/-- Replace the first commission row with the given id. -/
def replaceFirstCommissio : List Commissio → Nat → Commissio → List Commissio
  | [], _, _ => []
  | k :: rest, kid, k' =>
    if k.id == kid then k' :: rest else k :: replaceFirstCommissio rest kid k'

/-- Modelled from the spec: `Commissio.createCommissio` is referenced by the
dispatch table and the tests but its implementation is not among the source
files; spec §4.3 defines it.  It "fails `InsufficientFunds` if
`LedgerStore.getBalance(creator) < reward` ...  On success, debits `reward`
from creator immediately (escrow), then persists the record with status
OPEN", assigning the next sequential id. -/
def createCommissio (creator title : String) (reward expiry : Int)
    (s : EngineState) : EngineState × Except Err Nat :=
  match getBalance s.ledger creator with
  | .error e => (s, .error e)
  | .ok bal =>
    if bal < reward then (s, .error (.insufficientFunds bal))
    else
      match debit s.ledger creator reward ("Commissio escrow: " ++ title) with
      | .error e => (s, .error e)
      | .ok led' =>
        let kid := s.commissiones.length + 1
        ({ s with
            ledger := led',
            commissiones := s.commissiones ++
              [{ id := kid, title := title, creator := creator,
                 reward := reward, expiry := expiry, status := "OPEN",
                 assignee := "" }] },
         .ok kid)

/-- Modelled from the spec: `Commissio.acceptCommissio` is not among the
source files; spec §4.3 defines it.  It "fails `NotFound`; `StateError` if
status ≠ OPEN, or if current time is past `expiry`" (the stored status is
set to EXPIRED on that same access), and on success "sets status ASSIGNED
and records `assignee = acceptor`". -/
def acceptCommissio (now : Int) (acceptor : String) (kid : Nat)
    (s : EngineState) : EngineState × Except Err Unit :=
  match lookupCommissio s.commissiones kid with
  | none => (s, .error (.commissioNotFound kid))
  | some k =>
    if k.status ≠ "OPEN" then (s, .error (.commissioWrongState k.status))
    else if k.expiry < now then
      let ks := replaceFirstCommissio s.commissiones kid { k with status := "EXPIRED" }
      ({ s with commissiones := ks }, .error .commissioExpired)
    else
      let ks := replaceFirstCommissio s.commissiones kid
        { k with status := "ASSIGNED", assignee := acceptor }
      ({ s with commissiones := ks }, .ok ())

/-- Modelled from the spec: `Commissio.completeCommissio` is not among the
source files; spec §4.3 defines it.  It "fails `NotFound`; `StateError` if
status ≠ ASSIGNED; `AuthError` if `completer ≠ assignee`.  On success
credits `reward` to `completer`, sets status COMPLETED ...  Returns the
reward amount." -/
def completeCommissio (completer : String) (kid : Nat) (s : EngineState) :
    EngineState × Except Err Int :=
  match lookupCommissio s.commissiones kid with
  | none => (s, .error (.commissioNotFound kid))
  | some k =>
    if k.status ≠ "ASSIGNED" then (s, .error (.commissioWrongState k.status))
    else if k.assignee ≠ completer then (s, .error (.notAssignee k.assignee))
    else
      match credit s.ledger completer k.reward ("Commissio reward: " ++ k.title) with
      | .error e => (s, .error e)
      | .ok led' =>
        ({ s with
            ledger := led',
            commissiones := replaceFirstCommissio s.commissiones kid
              { k with status := "COMPLETED" } },
         .ok k.reward)

end Wavebucks

namespace Wavebucks

/-! ## Command routing (`DispatchService.js`, `InboxProcessor.gs`)

The regex grammar that turns free text into a structured command record is
an external collaborator (spec §1, §4.4); each handler below therefore takes
the parse outcome of its own sub-parser (`Except Err Parsed...`, error for a
parser throw) instead of re-implementing the regexes.  A handler returns the
store state next to `Except.ok reply` for a normal return, or `.error e`
when an exception escapes the handler (to be caught only by
`dispatchMessage`'s catch-all). -/

/-- Output of `CommandParsers.parseCausa`. -/
structure ParsedCausa where
  title : String
  options : List String
  closingDate : Int
  minWager : Nat
deriving DecidableEq, Repr

/-- Output of `CommandParsers.parseVote` (all three fields come from `\d+`
captures, hence are non-negative as produced by the real parser). -/
structure ParsedVote where
  causaId : Nat
  option : Int
  wager : Int
deriving DecidableEq, Repr

/-- Output of `CommandParsers.parseResolve`. -/
structure ParsedResolve where
  causaId : Nat
  winningOption : Int
deriving DecidableEq, Repr

/-- Output of `CommandParsers.parseCommissio`. -/
structure ParsedCommissio where
  title : String
  reward : Int
  expiry : Int
deriving DecidableEq, Repr

/-- Output of `CommandParsers.parseAccept` / `parseComplete`. -/
structure ParsedId where
  commissionId : Nat
deriving DecidableEq, Repr

/-- Output of `CommandParsers.parseTransfer`: `to` is a `[^\s]+` capture
(hence nonempty, lowercased), `amount` a `\d+` capture (hence ≥ 0 — note
the regex does admit `0`). -/
structure ParsedTransfer where
  toEmail : String
  amount : Int
deriving DecidableEq, Repr

/-- The command keywords of the dispatch table (`COMMISSIO_CMD` stands for
the `COMMISSIO` keyword). -/
inductive Command where
  | HELP | QUOT | CAUSA | VOTE | RESOLVE | COMMISSIO_CMD | ACCEPT | COMPLETE
  | TRANSFER | DEFAULT
deriving DecidableEq, Repr

/-- Everything a handler invocation sees: the acting email (from
`extractEmail`), the current time, and its sub-parser's outcome. -/
structure HandlerInput where
  email : String
  now : Int
  pCausa : Except Err ParsedCausa
  pVote : Except Err ParsedVote
  pResolve : Except Err ParsedResolve
  pCommissio : Except Err ParsedCommissio
  pAccept : Except Err ParsedId
  pComplete : Except Err ParsedId
  pTrans : Except Err ParsedTransfer

/-- `MessageBuilder.buildErrorMessage`. -/
def buildErrorMessage (txt : String) : String :=
  "<p>Error: " ++ txt ++ "</p><p>Send HELP for instructions.</p>"

/-- The `err.message` text a catch block interpolates (abridged renderings
of the messages listed on `Err`). -/
def errText : Err → String
  | .emailRequired => "Email is required"
  | .invalidAmount => "Amount must be positive"
  | .accountNotFound e => "No account found for email: " ++ e
  | .causaNotFound i => "Causa " ++ toString i ++ " not found"
  | .causaNotOpen st => "Causa not OPEN: " ++ st
  | .invalidOption => "Invalid option index"
  | .causaClosed => "Causa has closed"
  | .belowMinWager m => "Minimum wager is " ++ toString m
  | .onlyCreator c => "Only creator (" ++ c ++ ") can resolve this causa"
  | .insufficientFunds b => "Insufficient funds. Your balance: " ++ toString b
  | .parseFailed m => m
  | .commissioNotFound i => "Commissio " ++ toString i ++ " not found"
  | .commissioWrongState st => "Commissio is " ++ st
  | .commissioExpired => "Commissio has expired"
  | .notAssignee a => "Only assignee (" ++ a ++ ") can complete this task"

/-- `Causae.getActiveList` (digest line per OPEN causa, abridged). -/
def getActiveCausae (s : EngineState) : List String :=
  (s.causae.filter (fun c => toUpperCase c.status == "OPEN")).map
    (fun c => "Causa " ++ toString c.id ++ ": " ++ c.title)

/-- `Commissio.getActiveList` (digest line per OPEN commission, abridged). -/
def getActiveCommissiones (s : EngineState) : List String :=
  (s.commissiones.filter (fun k => toUpperCase k.status == "OPEN")).map
    (fun k => k.title ++ " - reward " ++ toString k.reward)

/-- `MessageBuilder.buildDigest` (abridged rendering). -/
def buildDigest (balance : Int) (s : EngineState) : String :=
  "Balance: " ++ toString balance ++
    " Active Causae: " ++ String.intercalate "; " (getActiveCausae s) ++
    " Active Commissions: " ++ String.intercalate "; " (getActiveCommissiones s)

/-- `Personality.get('HELP')` (a pure template in this model). -/
def helpText : String := "Scriba Senatus - Command Reference"

/-- The `DispatchTable` of `DispatchService.js`, one arm per keyword.
Every arm except `HELP`, `QUOT` and `DEFAULT` wraps its body in
`try { ... } catch (err) { return buildErrorMessage(...) }`; the `QUOT` arm
calls `Wavebucks.getBalance` with no try/catch, so a ledger error there
escapes as `.error`. -/
def runHandler (cmd : Command) (inp : HandlerInput) (s : EngineState) :
    EngineState × Except Err String :=
  match cmd with
  | .HELP => (s, .ok helpText)
  | .QUOT =>
    match getBalance s.ledger inp.email with
    | .error e => (s, .error e)
    | .ok bal => (s, .ok (buildDigest bal s))
  | .CAUSA =>
    match inp.pCausa with
    | .error e => (s, .ok (buildErrorMessage ("Causa creation failed: " ++ errText e)))
    | .ok p =>
      let (s', cid) := createCausa inp.email p.title p.options p.closingDate p.minWager s
      (s', .ok ("Causa Created ID: " ++ toString cid ++ " Title: " ++ p.title))
  | .VOTE =>
    match inp.pVote with
    | .error e => (s, .ok (buildErrorMessage ("Vote failed: " ++ errText e)))
    | .ok p =>
      match vote inp.now inp.email p.causaId p.option p.wager s with
      | (s', .ok _) =>
        (s', .ok ("Vote Recorded Causa ID: " ++ toString p.causaId))
      | (s', .error e) =>
        (s', .ok (buildErrorMessage ("Vote failed: " ++ errText e)))
  | .RESOLVE =>
    match inp.pResolve with
    | .error e => (s, .ok (buildErrorMessage ("Resolve failed: " ++ errText e)))
    | .ok p =>
      match resolveCausa p.causaId p.winningOption inp.email s with
      | (s', .ok res) =>
        (s', .ok ("Causa Resolved Winning Option: " ++ res.winningOption ++
                  " Total Pot: " ++ toString res.totalPot ++
                  " Winners: " ++ toString res.winnersCount))
      | (s', .error e) =>
        (s', .ok (buildErrorMessage ("Resolve failed: " ++ errText e)))
  | .COMMISSIO_CMD =>
    match inp.pCommissio with
    | .error e => (s, .ok (buildErrorMessage ("Commissio creation failed: " ++ errText e)))
    | .ok p =>
      match createCommissio inp.email p.title p.reward p.expiry s with
      | (s', .ok kid) =>
        (s', .ok ("Commissio Created ID: " ++ toString kid))
      | (s', .error e) =>
        (s', .ok (buildErrorMessage ("Commissio creation failed: " ++ errText e)))
  | .ACCEPT =>
    match inp.pAccept with
    | .error e => (s, .ok (buildErrorMessage ("Accept failed: " ++ errText e)))
    | .ok p =>
      match acceptCommissio inp.now inp.email p.commissionId s with
      | (s', .ok _) => (s', .ok ("Commissio Accepted ID: " ++ toString p.commissionId))
      | (s', .error e) => (s', .ok (buildErrorMessage ("Accept failed: " ++ errText e)))
  | .COMPLETE =>
    match inp.pComplete with
    | .error e => (s, .ok (buildErrorMessage ("Complete failed: " ++ errText e)))
    | .ok p =>
      match completeCommissio inp.email p.commissionId s with
      | (s', .ok reward) =>
        (s', .ok ("Commissio Completed Reward Earned: " ++ toString reward))
      | (s', .error e) =>
        (s', .ok (buildErrorMessage ("Complete failed: " ++ errText e)))
  | .TRANSFER =>
    match inp.pTrans with
    | .error e => (s, .ok (buildErrorMessage ("Transfer failed: " ++ errText e)))
    | .ok p =>
      match getBalance s.ledger inp.email with
      | .error e => (s, .ok (buildErrorMessage ("Transfer failed: " ++ errText e)))
      | .ok senderBalance =>
        if senderBalance < p.amount then
          (s, .ok (buildErrorMessage ("Transfer failed: " ++
              errText (.insufficientFunds senderBalance))))
        else
          match debit s.ledger inp.email p.amount ("Transfer to " ++ p.toEmail) with
          | .error e => (s, .ok (buildErrorMessage ("Transfer failed: " ++ errText e)))
          | .ok led₁ =>
            match credit led₁ p.toEmail p.amount ("Transfer from " ++ inp.email) with
            | .error e =>
              ({ s with ledger := led₁ },
               .ok (buildErrorMessage ("Transfer failed: " ++ errText e)))
            | .ok led₂ =>
              match getBalance led₂ inp.email with
              | .error e =>
                ({ s with ledger := led₂ },
                 .ok (buildErrorMessage ("Transfer failed: " ++ errText e)))
              | .ok newBal =>
                ({ s with ledger := led₂ },
                 .ok ("Transfer Complete To: " ++ p.toEmail ++
                      " Amount: " ++ toString p.amount ++
                      " Your New Balance: " ++ toString newBal))
  | .DEFAULT => (s, .ok (buildErrorMessage "Unrecognized command."))

end Wavebucks

namespace Wavebucks

/-! ## Ledger lemmas -/

theorem emailEq_self (a : String) : emailEq a a = true := by
  simp [emailEq]

theorem emailEq_true_iff {a b : String} : emailEq a b = true ↔ toLowerCase a = toLowerCase b := by
  simp [emailEq]

theorem findBalance_append (l₁ l₂ : List (String × Int)) (e : String) :
    findBalance (l₁ ++ l₂) e =
      match findBalance l₁ e with
      | some b => some b
      | none => findBalance l₂ e := by
  induction l₁ with
  | nil => simp [findBalance]
  | cons r rest ih =>
    by_cases h : emailEq r.1 e
    · simp [findBalance, h]
    · simp [findBalance, h, ih]

theorem ensureAccount_log (led : Ledger) (e : String) :
    (ensureAccount led e).log = led.log := by
  unfold ensureAccount
  cases findBalance led.balances e <;> rfl

theorem findBalance_ensureAccount_self (led : Ledger) (e : String) :
    findBalance (ensureAccount led e).balances e = some (balanceOf led e) := by
  unfold ensureAccount balanceOf
  cases h : findBalance led.balances e with
  | some b => simp [h]
  | none => simp [h, findBalance_append, findBalance, emailEq_self]

theorem findBalance_ensureAccount_ne (led : Ledger) {e e' : String}
    (h : emailEq e e' = false) :
    findBalance (ensureAccount led e).balances e' = findBalance led.balances e' := by
  unfold ensureAccount
  cases hf : findBalance led.balances e with
  | some b => rfl
  | none =>
    cases hf' : findBalance led.balances e' with
    | some b => simp [findBalance_append, hf', h]
    | none => simp [findBalance_append, hf', findBalance, h]

theorem findBalance_setFirstBalance_self {bs : List (String × Int)} {e : String}
    {b : Int} (h : findBalance bs e = some b) (nb : Int) :
    findBalance (setFirstBalance bs e nb) e = some nb := by
  induction bs with
  | nil => simp [findBalance] at h
  | cons r rest ih =>
    by_cases hr : emailEq r.1 e
    · simp [setFirstBalance, findBalance, hr]
    · simp only [findBalance, hr, if_neg, Bool.false_eq_true, if_false] at h
      simp [setFirstBalance, findBalance, hr, ih h]

theorem findBalance_setFirstBalance_ne (bs : List (String × Int)) {e e' : String}
    (h : emailEq e e' = false) (nb : Int) :
    findBalance (setFirstBalance bs e nb) e' = findBalance bs e' := by
  induction bs with
  | nil => rfl
  | cons r rest ih =>
    by_cases hr : emailEq r.1 e
    · have hr' : emailEq r.1 e' = false := by
        rcases hb : emailEq r.1 e' with _ | _
        · rfl
        · exfalso
          rw [emailEq_true_iff] at hr hb
          rw [show emailEq e e' = true from emailEq_true_iff.mpr (hr ▸ hb)] at h
          exact Bool.noConfusion h
      simp [setFirstBalance, findBalance, hr, hr']
    · by_cases hb : emailEq r.1 e'
      · simp [setFirstBalance, findBalance, hr, hb]
      · simp [setFirstBalance, findBalance, hr, hb, ih]

/-- Successful `credit` written out: the first matching (or freshly created)
row's balance grows by `amount` and one positive `Log` row is appended. -/
theorem credit_ok (led : Ledger) {e : String} {a : Int} (n : String)
    (h1 : e ≠ "") (h2 : 0 < a) :
    credit led e a n =
      .ok { balances := setFirstBalance (ensureAccount led e).balances e (balanceOf led e + a),
            log := led.log ++ [⟨e, a, n, balanceOf led e, true⟩] } := by
  unfold credit
  rw [if_neg h1, if_neg (by omega : ¬ a ≤ 0)]
  simp [findBalance_ensureAccount_self, ensureAccount_log]

/-- Successful `debit` written out: the balance shrinks by `amount` while the
appended `Log` row records the positive `amount` (not `-amount`). -/
theorem debit_ok (led : Ledger) {e : String} {a : Int} (n : String)
    (h1 : e ≠ "") (h2 : 0 < a) :
    debit led e a n =
      .ok { balances := setFirstBalance (ensureAccount led e).balances e (balanceOf led e - a),
            log := led.log ++ [⟨e, a, n, balanceOf led e, true⟩] } := by
  unfold debit
  rw [if_neg h1, if_neg (by omega : ¬ a ≤ 0)]
  simp [findBalance_ensureAccount_self, ensureAccount_log]

/-- A `credit` of a non-positive amount always throws. -/
theorem credit_nonpos (led : Ledger) (e : String) {a : Int} (n : String)
    (h : a ≤ 0) :
    credit led e a n = .error (if e = "" then .emailRequired else .invalidAmount) := by
  unfold credit
  by_cases he : e = "" <;> simp [he, h]

/-- A `debit` of a non-positive amount always throws. -/
theorem debit_nonpos (led : Ledger) (e : String) {a : Int} (n : String)
    (h : a ≤ 0) :
    debit led e a n = .error (if e = "" then .emailRequired else .invalidAmount) := by
  unfold debit
  by_cases he : e = "" <;> simp [he, h]

/-- Any successful `credit` grows the account by exactly `amount` … -/
theorem credit_balance_self {led : Ledger} {e : String} {a : Int} {n : String}
    {led' : Ledger} (h : credit led e a n = .ok led') :
    findBalance led'.balances e = some (balanceOf led e + a) := by
  by_cases h1 : e = ""
  · rw [h1] at h; simp [credit] at h
  · by_cases h2 : a ≤ 0
    · rw [credit_nonpos led e n h2] at h; simp at h
    · rw [credit_ok led n h1 (by omega)] at h
      simp only [Except.ok.injEq] at h
      subst h
      exact findBalance_setFirstBalance_self (findBalance_ensureAccount_self led e) _

/-- … leaves every other account's row alone … -/
theorem credit_balance_ne {led : Ledger} {e : String} {a : Int} {n : String}
    {led' : Ledger} (h : credit led e a n = .ok led') {e' : String}
    (hne : emailEq e e' = false) :
    findBalance led'.balances e' = findBalance led.balances e' := by
  by_cases h1 : e = ""
  · rw [h1] at h; simp [credit] at h
  · by_cases h2 : a ≤ 0
    · rw [credit_nonpos led e n h2] at h; simp at h
    · rw [credit_ok led n h1 (by omega)] at h
      simp only [Except.ok.injEq] at h
      subst h
      rw [findBalance_setFirstBalance_ne _ hne, findBalance_ensureAccount_ne _ hne]

/-- … and appends exactly one `Log` row, recording the positive `amount`. -/
theorem credit_log {led : Ledger} {e : String} {a : Int} {n : String}
    {led' : Ledger} (h : credit led e a n = .ok led') :
    led'.log = led.log ++ [⟨e, a, n, balanceOf led e, true⟩] := by
  by_cases h1 : e = ""
  · rw [h1] at h; simp [credit] at h
  · by_cases h2 : a ≤ 0
    · rw [credit_nonpos led e n h2] at h; simp at h
    · rw [credit_ok led n h1 (by omega)] at h
      simp only [Except.ok.injEq] at h
      subst h
      rfl

/-- `debit` analogue of `credit_balance_self`. -/
theorem debit_balance_self {led : Ledger} {e : String} {a : Int} {n : String}
    {led' : Ledger} (h : debit led e a n = .ok led') :
    findBalance led'.balances e = some (balanceOf led e - a) := by
  by_cases h1 : e = ""
  · rw [h1] at h; simp [debit] at h
  · by_cases h2 : a ≤ 0
    · rw [debit_nonpos led e n h2] at h; simp at h
    · rw [debit_ok led n h1 (by omega)] at h
      simp only [Except.ok.injEq] at h
      subst h
      exact findBalance_setFirstBalance_self (findBalance_ensureAccount_self led e) _

/-- `debit` analogue of `credit_balance_ne`. -/
theorem debit_balance_ne {led : Ledger} {e : String} {a : Int} {n : String}
    {led' : Ledger} (h : debit led e a n = .ok led') {e' : String}
    (hne : emailEq e e' = false) :
    findBalance led'.balances e' = findBalance led.balances e' := by
  by_cases h1 : e = ""
  · rw [h1] at h; simp [debit] at h
  · by_cases h2 : a ≤ 0
    · rw [debit_nonpos led e n h2] at h; simp at h
    · rw [debit_ok led n h1 (by omega)] at h
      simp only [Except.ok.injEq] at h
      subst h
      rw [findBalance_setFirstBalance_ne _ hne, findBalance_ensureAccount_ne _ hne]

/-- `debit` analogue of `credit_log`: the appended row records `amount`
itself. -/
theorem debit_log {led : Ledger} {e : String} {a : Int} {n : String}
    {led' : Ledger} (h : debit led e a n = .ok led') :
    led'.log = led.log ++ [⟨e, a, n, balanceOf led e, true⟩] := by
  by_cases h1 : e = ""
  · rw [h1] at h; simp [debit] at h
  · by_cases h2 : a ≤ 0
    · rw [debit_nonpos led e n h2] at h; simp at h
    · rw [debit_ok led n h1 (by omega)] at h
      simp only [Except.ok.injEq] at h
      subst h
      rfl

/-- A successful `debit` had a positive amount and a nonempty email. -/
theorem debit_ok_pos {led : Ledger} {e : String} {a : Int} {n : String}
    {led' : Ledger} (h : debit led e a n = .ok led') : e ≠ "" ∧ 0 < a := by
  by_cases h1 : e = ""
  · rw [h1] at h; simp [debit] at h
  · by_cases h2 : a ≤ 0
    · rw [debit_nonpos led e n h2] at h; simp at h
    · exact ⟨h1, by omega⟩

/-! ## Causa lemmas -/

theorem lookupCausa_mem {cs : List Causa} {cid : Nat} {c : Causa}
    (h : lookupCausa cs cid = some c) : c ∈ cs :=
  List.mem_of_find?_eq_some h

theorem lookupCausa_id {cs : List Causa} {cid : Nat} {c : Causa}
    (h : lookupCausa cs cid = some c) : c.id = cid := by
  have := List.find?_some h
  simpa using this

theorem mem_replaceFirstCausa {cs : List Causa} {cid : Nat} {c' a : Causa}
    (h : a ∈ replaceFirstCausa cs cid c') : a ∈ cs ∨ a = c' := by
  induction cs with
  | nil => simp [replaceFirstCausa] at h
  | cons c rest ih =>
    by_cases hc : c.id == cid
    · simp only [replaceFirstCausa, hc, if_true] at h
      rcases List.mem_cons.mp h with rfl | h
      · exact Or.inr rfl
      · exact Or.inl (List.mem_cons_of_mem _ h)
    · simp only [replaceFirstCausa, hc, if_false, Bool.false_eq_true] at h
      rcases List.mem_cons.mp h with rfl | h
      · exact Or.inl (List.mem_cons_self _ _)
      · rcases ih h with h' | h'
        · exact Or.inl (List.mem_cons_of_mem _ h')
        · exact Or.inr h'

theorem lookupCausa_replaceFirstCausa {cs : List Causa} {cid : Nat} {c : Causa}
    (h : lookupCausa cs cid = some c) (c' : Causa) (hid : c'.id = cid) :
    lookupCausa (replaceFirstCausa cs cid c') cid = some c' := by
  induction cs with
  | nil => simp [lookupCausa, List.find?] at h
  | cons d rest ih =>
    by_cases hd : d.id == cid
    · simp [replaceFirstCausa, lookupCausa, List.find?, hd, hid]
    · simp only [lookupCausa, List.find?, hd] at h
      have hrepl : replaceFirstCausa (d :: rest) cid c' = d :: replaceFirstCausa rest cid c' := by
        simp [replaceFirstCausa, hd]
      rw [hrepl]
      have hfind : lookupCausa (d :: replaceFirstCausa rest cid c') cid =
          lookupCausa (replaceFirstCausa rest cid c') cid := by
        simp [lookupCausa, List.find?, hd]
      rw [hfind]
      exact ih h

/-- The `TotalPot` bookkeeping invariant (spec §3). -/
def potInv (c : Causa) : Prop := c.totalPot = (c.votes.map Vote.wager).sum

/-- Engine-reachable states of the pre-resolution Causa lifecycle: any
starting ledger with empty `Causae`/`Commissiones` sheets, closed under
`createCausa`, successful `vote` calls, and any activity that leaves the
`Causae` sheet alone (ledger transfers, Commissio operations). -/
inductive Reach : EngineState → Prop where
  | init (led : Ledger) : Reach ⟨led, [], []⟩
  | createStep (creator title : String) (options : List String) (closing : Int)
      (minW : Nat) {s : EngineState} :
      Reach s → Reach (createCausa creator title options closing minW s).1
  | voteStep (now : Int) (voter : String) (cid : Nat) (oi w : Int)
      {s : EngineState} : Reach s → (vote now voter cid oi w s).2 = .ok () →
      Reach (vote now voter cid oi w s).1
  | envStep (led' : Ledger) (ks' : List Commissio) {s : EngineState} :
      Reach s → Reach ⟨led', s.causae, ks'⟩

/-- A `vote` call preserves the pot invariant: on failure the sheet is
untouched, on success the located row gets its pot raised by the wager just
appended to its votes. -/
theorem vote_preserves_potInv {s : EngineState} {now : Int} {voter : String}
    {cid : Nat} {oi w : Int}
    (hinv : ∀ c ∈ s.causae, potInv c) :
    ∀ c ∈ (vote now voter cid oi w s).1.causae, potInv c := by
  unfold vote
  cases hl : lookupCausa s.causae cid with
  | none => simp [hl]; exact hinv
  | some c =>
    simp only [hl] 
    by_cases h1 : toUpperCase c.status ≠ "OPEN"
    · simp [h1]; exact hinv
    · simp only [h1, if_false, ite_not, if_true, reduceIte] 
      by_cases h2 : oi < 0 ∨ (c.options.length : Int) ≤ oi
      · simp [h2]; exact hinv
      · simp only [h2, if_false, reduceIte] 
        by_cases h3 : c.closingDate < now
        · simp [h3]; exact hinv
        · simp only [h3, if_false, reduceIte] 
          by_cases h4 : w < (minWagerOf c.notes : Int)
          · simp [h4]; exact hinv
          · simp only [h4, if_false, reduceIte] 
            cases hd : debit s.ledger voter w
                ("Vote on Causa " ++ toString cid ++ ": " ++ c.title) with
            | error e => simp [hd]; exact hinv
            | ok led' =>
              simp only [hd]
              intro c' hc'
              rcases mem_replaceFirstCausa hc' with hmem | rfl
              · exact hinv c' hmem
              · have := hinv c (lookupCausa_mem hl)
                simp only [potInv] at this ⊢
                simp [this]

/-! ## resolveCausa lemmas -/

/-- A non-OPEN causa is rejected (before any other check) with the
`already ${status}` error, leaving the store untouched. -/
theorem resolveCausa_not_open {s : EngineState} {cid : Nat} {c : Causa}
    (hl : lookupCausa s.causae cid = some c)
    (hst : toUpperCase c.status ≠ "OPEN") (w : Int) (r : String) :
    resolveCausa cid w r s = (s, .error (.causaNotOpen (toUpperCase c.status))) := by
  unfold resolveCausa
  simp [hl, hst]

/-- On an OPEN causa, a resolver who is not the creator is rejected with the
`Only creator` error, leaving the store untouched. -/
theorem resolveCausa_wrong_resolver {s : EngineState} {cid : Nat} {c : Causa}
    (hl : lookupCausa s.causae cid = some c)
    (hst : toUpperCase c.status = "OPEN") {r : String} (hr : c.creator ≠ r) (w : Int) :
    resolveCausa cid w r s = (s, .error (.onlyCreator c.creator)) := by
  unfold resolveCausa
  simp [hl, hst, hr]

/-- What a successful `resolveCausa` implies: the row existed, was OPEN, the
resolver was the creator, the winning index was in range, and the row was
rewritten to status RESOLVED (with a fresh note). -/
theorem resolveCausa_ok_spec {s : EngineState} {cid : Nat} {w : Int}
    {r : String} {res : ResolveResult}
    (h : (resolveCausa cid w r s).2 = .ok res) :
    ∃ c nt, lookupCausa s.causae cid = some c ∧
      toUpperCase c.status = "OPEN" ∧ c.creator = r ∧
      ¬(w < 0 ∨ (c.options.length : Int) ≤ w) ∧
      (resolveCausa cid w r s).1.causae =
        replaceFirstCausa s.causae cid { c with status := "RESOLVED", notes := nt } := by
  unfold resolveCausa at h ⊢
  cases hl : lookupCausa s.causae cid with
  | none => simp [hl] at h
  | some c =>
    simp only [hl] at h ⊢
    by_cases h1 : toUpperCase c.status ≠ "OPEN"
    · simp [h1] at h
    · simp only [h1, if_false, ite_not, if_true, reduceIte] at h ⊢
      by_cases h2 : c.creator ≠ r
      · simp [h2] at h
      · simp only [not_ne_iff.mp h2, eq_self_iff_true, if_true, reduceIte] at h ⊢
        by_cases h3 : w < 0 ∨ (c.options.length : Int) ≤ w
        · simp [h3] at h
        · simp only [h3, if_false, reduceIte] at h ⊢
          by_cases h4 : (c.votes.filter (fun v => v.option == w)).isEmpty
          · simp only [h4, if_true, reduceIte] at h ⊢
            cases hc : credit s.ledger r c.totalPot
                ("Causa " ++ toString cid ++ " resolved - no winners") with
            | error e => simp [hc] at h
            | ok led' =>
              refine ⟨c, .resolvedNote ("Resolved: " ++ (c.options.get? w.toNat).getD "" ++
                  ". No winners, pot to creator."),
                rfl, not_not.mp h1, not_ne_iff.mp h2, h3, ?_⟩
              simp [hc, not_ne_iff.mp h2]
          · simp only [h4, if_false, Bool.false_eq_true, reduceIte] at h ⊢
            cases hcw : creditWinners cid c.title
                ((List.map Vote.wager (c.votes.filter (fun v => v.option == w))).sum)
                c.totalPot s.ledger (c.votes.filter (fun v => v.option == w)) with
            | mk led' res' =>
              cases res' with
              | error e => simp [hcw] at h
              | ok u =>
                refine ⟨c, .resolvedNote ("Resolved: " ++ (c.options.get? w.toNat).getD "" ++
                    ". " ++ toString (c.votes.filter (fun v => v.option == w)).length ++
                    " winner(s)."),
                  rfl, not_not.mp h1, not_ne_iff.mp h2, h3, ?_⟩
                simp [hcw, not_ne_iff.mp h2]

/-! ## C3: the pot invariant over reachable states -/

/-- C3: For every causa reachable through the engine operations
(`createCausa` followed by any sequence of successful `vote` calls, with
arbitrary interleaved activity that does not touch the `Causae` sheet), the
stored `TotalPot` equals the sum of the `wager` fields over the stored
votes list. -/
theorem C3_totalPot_eq_sum_of_wagers {s : EngineState} (h : Reach s) :
    ∀ c ∈ s.causae, potInv c := by
  induction h with
  | init led => simp
  | createStep creator title options closing minW hs ih =>
    intro c hc
    unfold createCausa at hc
    simp only [List.mem_append, List.mem_singleton] at hc
    rcases hc with hc | rfl
    · exact ih c hc
    · simp [potInv]
  | voteStep now voter cid oi w hs hok ih => exact vote_preserves_potInv ih
  | envStep led' ks' hs ih => exact ih

/-- Witness for C3: a concrete reachable state — one causa created and then
voted on once (wager 5) — whose stored pot equals the wager sum. -/
theorem C3_totalPot_eq_sum_of_wagers_witness :
    potInv { id := 1, title := "T", options := ["a", "b"],
             creator := "cr@x.com", status := "OPEN", totalPot := 5,
             closingDate := 100,
             votes := [{ email := "v@x.com", option := 0, wager := 5 }],
             notes := .minWagerNote 1 } :=
  C3_totalPot_eq_sum_of_wagers
    (Reach.voteStep 0 "v@x.com" 1 0 5
      (Reach.createStep "cr@x.com" "T" ["a", "b"] 100 1
        (Reach.init ⟨[("v@x.com", 50)], []⟩))
      rfl)
    _ (by decide)

/-! ## C7: resolution authorization and the single OPEN → RESOLVED transition -/

/-- C7: `resolveCausa` fails with the only-creator error (`AuthError`) when
the resolver is not the creator of an OPEN causa; fails with the
`already ${status}` error (`StateError`) when the causa is not OPEN; and a
successful resolution starts from an OPEN row, rewrites it to RESOLVED, and
makes every further resolve call on the same causa fail with that state
error while leaving the store unchanged — so the OPEN → RESOLVED transition
happens exactly once. -/
theorem C7_resolve_auth_state_once (s : EngineState) (cid : Nat)
    (w : Int) (r : String) :
    (∀ c, lookupCausa s.causae cid = some c → toUpperCase c.status = "OPEN" →
      c.creator ≠ r →
      resolveCausa cid w r s = (s, .error (.onlyCreator c.creator))) ∧
    (∀ c, lookupCausa s.causae cid = some c → toUpperCase c.status ≠ "OPEN" →
      resolveCausa cid w r s = (s, .error (.causaNotOpen (toUpperCase c.status)))) ∧
    (∀ s' res, resolveCausa cid w r s = (s', .ok res) →
      (∃ c, lookupCausa s.causae cid = some c ∧ toUpperCase c.status = "OPEN") ∧
      (∃ c', lookupCausa s'.causae cid = some c' ∧ c'.status = "RESOLVED") ∧
      ∀ w2 r2, resolveCausa cid w2 r2 s' = (s', .error (.causaNotOpen "RESOLVED"))) := by
  refine ⟨?_, ?_, ?_⟩
  · intro c hl hst hr
    exact resolveCausa_wrong_resolver hl hst hr w
  · intro c hl hst
    exact resolveCausa_not_open hl hst w r
  · intro s' res h
    obtain ⟨c, nt, hl, hst, _hcr, _hrange, hcausae⟩ :=
      resolveCausa_ok_spec (by rw [h] : (resolveCausa cid w r s).2 = .ok res)
    have hs' : (resolveCausa cid w r s).1 = s' := by rw [h]
    rw [hs'] at hcausae
    have hid : c.id = cid := lookupCausa_id hl
    have hl' : lookupCausa s'.causae cid = some { c with status := "RESOLVED", notes := nt } := by
      rw [hcausae]
      exact lookupCausa_replaceFirstCausa hl _ hid
    refine ⟨⟨c, hl, hst⟩, ⟨_, hl', rfl⟩, ?_⟩
    intro w2 r2
    have hne : toUpperCase ({ c with status := "RESOLVED", notes := nt } : Causa).status ≠ "OPEN" := by
      show toUpperCase "RESOLVED" ≠ "OPEN"
      decide
    have := resolveCausa_not_open hl' hne w2 r2
    rw [this]
    rfl

/-- The concrete OPEN causa used by the C7 witness (one vote of 10 on
option 0, creator `alice@x.com`). -/
def causaC7 : Causa :=
  { id := 1, title := "Q", options := ["a", "b"], creator := "alice@x.com",
    status := "OPEN", totalPot := 10, closingDate := 100,
    votes := [{ email := "bob@x.com", option := 0, wager := 10 }],
    notes := .minWagerNote 1 }

/-- The concrete store used by the C7 witness. -/
def stateC7 : EngineState :=
  { ledger := { balances := [("alice@x.com", 100), ("bob@x.com", 90)], log := [] },
    causae := [causaC7], commissiones := [] }

/-- Witness for C7: on the concrete OPEN causa, a resolve attempt by a
non-creator fails with the only-creator error and changes nothing. -/
theorem C7_resolve_auth_state_once_witness :
    resolveCausa 1 0 "eve@x.com" stateC7 = (stateC7, .error (.onlyCreator "alice@x.com")) :=
  (C7_resolve_auth_state_once stateC7 1 0 "eve@x.com").1 causaC7
    (by decide) (by decide) (by decide)

/-! ## C6 / C10: the no-winners branch -/

/-- C6 (amended): when the creator of an OPEN causa with a positive pot
resolves it with a valid winning option that no vote selected, the call
succeeds with `winnersCount = 0` and the entire pot is credited to the
creator's account (the creator's email being nonempty, as every real sender
address is). -/
theorem C6_no_winners_pot_to_creator {s : EngineState} {cid : Nat} {c : Causa}
    (hl : lookupCausa s.causae cid = some c)
    (hst : toUpperCase c.status = "OPEN")
    {w : Int} (hw : ¬(w < 0 ∨ (c.options.length : Int) ≤ w))
    (hnw : ((c.votes.filter (fun v => v.option == w)).isEmpty : Prop))
    (hcr : c.creator ≠ "") (hpot : 0 < c.totalPot) :
    (resolveCausa cid w c.creator s).2 =
        .ok ⟨cid, (c.options.get? w.toNat).getD "", c.totalPot, 0⟩ ∧
    findBalance (resolveCausa cid w c.creator s).1.ledger.balances c.creator =
        some (balanceOf s.ledger c.creator + c.totalPot) := by
  have heq : resolveCausa cid w c.creator s =
      ({ s with
          ledger := { balances := setFirstBalance (ensureAccount s.ledger c.creator).balances
                        c.creator (balanceOf s.ledger c.creator + c.totalPot),
                      log := s.ledger.log ++
                        [⟨c.creator, c.totalPot,
                          "Causa " ++ toString cid ++ " resolved - no winners",
                          balanceOf s.ledger c.creator, true⟩] },
          causae := replaceFirstCausa s.causae cid
            { c with status := "RESOLVED",
                     notes := .resolvedNote ("Resolved: " ++ (c.options.get? w.toNat).getD "" ++
                       ". No winners, pot to creator.") } },
       .ok ⟨cid, (c.options.get? w.toNat).getD "", c.totalPot, 0⟩) := by
    unfold resolveCausa
    simp only [hl]
    rw [if_neg (not_ne_iff.mpr hst), if_neg (not_ne_iff.mpr rfl), if_neg hw, if_pos hnw,
      credit_ok s.ledger _ hcr hpot]
  rw [heq]
  exact ⟨rfl, findBalance_setFirstBalance_self (findBalance_ensureAccount_self _ _) _⟩

/-- Concrete causa for the C6 witness: one losing vote of 15 on option 1,
pot 15, creator `alice@x.com`. -/
def causaC6 : Causa :=
  { id := 1, title := "Q", options := ["a", "b"], creator := "alice@x.com",
    status := "OPEN", totalPot := 15, closingDate := 100,
    votes := [{ email := "carol@x.com", option := 1, wager := 15 }],
    notes := .minWagerNote 1 }

/-- Concrete store for the C6 witness. -/
def stateC6 : EngineState :=
  { ledger := { balances := [("alice@x.com", 100), ("carol@x.com", 85)], log := [] },
    causae := [causaC6], commissiones := [] }

/-- Witness for C6: resolving the concrete causa on option 0 (which nobody
chose) succeeds with `winnersCount = 0` and credits the pot of 15 to the
creator, whose balance reaches 115. -/
theorem C6_no_winners_pot_to_creator_witness :
    (resolveCausa 1 0 "alice@x.com" stateC6).2 =
        .ok ⟨1, "a", 15, 0⟩ ∧
    findBalance (resolveCausa 1 0 "alice@x.com" stateC6).1.ledger.balances
        "alice@x.com" = some (100 + 15) :=
  @C6_no_winners_pot_to_creator stateC6 1 causaC6
    (by decide) (by decide) 0 (by decide) (by decide) (by decide) (by decide)

/-- The concrete vote-less OPEN causa shared by the C6 counterexample and
the C10 witness. -/
def causaPotZero : Causa :=
  { id := 1, title := "Q", options := ["a", "b"], creator := "alice@x.com",
    status := "OPEN", totalPot := 0, closingDate := 100, votes := [],
    notes := .minWagerNote 1 }

/-- Concrete store holding only `causaPotZero`. -/
def statePotZero : EngineState :=
  { ledger := { balances := [("alice@x.com", 100)], log := [] },
    causae := [causaPotZero], commissiones := [] }

/-- Counterexample to C6 as stated: on an OPEN causa whose votes list is
empty — where vacuously no vote selected the winning option — the creator's
resolve call does not credit the pot and return `winnersCount = 0`; it
throws from the `credit` amount guard (`Credit amount must be positive`,
the pot being 0) and the store is unchanged. -/
theorem C6_counterexample_empty_votes :
    resolveCausa 1 0 "alice@x.com" statePotZero =
      (statePotZero, .error .invalidAmount) := rfl

/-- C10: an OPEN causa with an empty votes list (`totalPot = 0`) can never
be resolved: every `resolveCausa` call on it errors (the no-winners branch
hands `credit` the zero pot, which its amount guard rejects — or an earlier
check fails), and the store — hence the causa's OPEN status — is unchanged. -/
theorem C10_empty_causa_never_resolves {s : EngineState} {cid : Nat} {c : Causa}
    (hl : lookupCausa s.causae cid = some c)
    (hst : toUpperCase c.status = "OPEN")
    (hv : c.votes = []) (hpot : c.totalPot = 0) :
    ∀ w r, (resolveCausa cid w r s).1 = s ∧
      lookupCausa (resolveCausa cid w r s).1.causae cid = some c ∧
      ∃ e, (resolveCausa cid w r s).2 = .error e := by
  intro w r
  have hmain : (resolveCausa cid w r s).1 = s ∧ ∃ e, (resolveCausa cid w r s).2 = .error e := by
    unfold resolveCausa
    simp only [hl]
    rw [if_neg (not_ne_iff.mpr hst)]
    by_cases hr : c.creator ≠ r
    · rw [if_pos hr]
      exact ⟨rfl, _, rfl⟩
    · rw [if_neg hr]
      by_cases hrange : w < 0 ∨ (c.options.length : Int) ≤ w
      · rw [if_pos hrange]
        exact ⟨rfl, _, rfl⟩
      · rw [if_neg hrange, if_pos (by simp [hv] : ((c.votes.filter (fun v => v.option == w)).isEmpty : Prop)),
          hpot, credit_nonpos s.ledger c.creator _ le_rfl]
        exact ⟨rfl, _, rfl⟩
  exact ⟨hmain.1, by rw [hmain.1]; exact hl, hmain.2⟩

/-! ## C1: proportional payout -/

/-- A fully successful winners loop appends, in winner order, one credit
per winner whose amount is that winner's floored proportional share. -/
theorem creditWinners_ok_log {cid : Nat} {title : String} {totalW pot : Int} :
    ∀ (led led' : Ledger) (ws : List Vote),
      creditWinners cid title totalW pot led ws = (led', .ok ()) →
      led'.log.map (fun en => (en.email, en.delta)) =
        led.log.map (fun en => (en.email, en.delta)) ++
          ws.map (fun v => (v.email, shareOf v.wager totalW pot)) := by
  intro led led' ws
  induction ws generalizing led with
  | nil =>
    intro h
    unfold creditWinners at h
    rw [show led' = led from congrArg Prod.fst h.symm]
    simp
  | cons v rest ih =>
    intro h
    unfold creditWinners at h
    cases hc : credit led v.email (shareOf v.wager totalW pot)
        ("Won Causa " ++ toString cid ++ ": " ++ title) with
    | error e => rw [hc] at h; simp at h
    | ok led₁ =>
      rw [hc] at h
      rw [ih led₁ h, credit_log hc]
      simp

/-- C1 (general half): whenever `resolveCausa` succeeds on a causa with at
least one vote on the winning option, the ledger log is extended by exactly
one credit per winner, in vote order, whose amount is
`shareOf winner.wager (sum of winners' wagers) totalPot` — the floored
proportional share. -/
theorem resolveCausa_winners_credited {s : EngineState} {cid : Nat} {w : Int}
    {r : String} {res : ResolveResult} {c : Causa}
    (hok : (resolveCausa cid w r s).2 = .ok res)
    (hl : lookupCausa s.causae cid = some c)
    (hw : (c.votes.filter (fun v => v.option == w)).isEmpty = false) :
    (resolveCausa cid w r s).1.ledger.log.map (fun en => (en.email, en.delta)) =
      s.ledger.log.map (fun en => (en.email, en.delta)) ++
        (c.votes.filter (fun v => v.option == w)).map
          (fun v => (v.email,
            shareOf v.wager
              ((List.map Vote.wager (c.votes.filter (fun v => v.option == w))).sum)
              c.totalPot)) := by
  unfold resolveCausa at hok ⊢
  simp only [hl] at hok ⊢
  by_cases h1 : toUpperCase c.status ≠ "OPEN"
  · rw [if_pos h1] at hok; simp at hok
  · rw [if_neg h1] at hok ⊢
    by_cases h2 : c.creator ≠ r
    · rw [if_pos h2] at hok; simp at hok
    · rw [if_neg h2] at hok ⊢
      by_cases h3 : w < 0 ∨ (c.options.length : Int) ≤ w
      · rw [if_pos h3] at hok; simp at hok
      · rw [if_neg h3] at hok ⊢
        rw [if_neg (by simp [hw] : ¬ ((c.votes.filter (fun v => v.option == w)).isEmpty : Prop))]
          at hok ⊢
        cases hcw : creditWinners cid c.title
            ((List.map Vote.wager (c.votes.filter (fun v => v.option == w))).sum)
            c.totalPot s.ledger (c.votes.filter (fun v => v.option == w)) with
        | mk led' r' =>
          cases r' with
          | error e => rw [hcw] at hok; simp at hok
          | ok u =>
            cases u
            simp only [hcw]
            simpa using creditWinners_ok_log s.ledger led' _ hcw

/-- The starting balances of the spec's end-to-end scenario A. -/
def stateA0 : EngineState :=
  { ledger := { balances := [("dana@x.com", 100), ("alice@x.com", 100),
                             ("bob@x.com", 100), ("carol@x.com", 100)],
                log := [] },
    causae := [], commissiones := [] }

/-- Scenario A, step 1: Dana creates the Pizza causa (minimum wager 5). -/
def stateA1 : EngineState :=
  (createCausa "dana@x.com" "Pizza" ["Pepperoni", "Mushroom"] 1000 5 stateA0).1

/-- Scenario A after Alice wagers 10 on option 0. -/
def stateA2 : EngineState := (vote 0 "alice@x.com" 1 0 10 stateA1).1

/-- Scenario A after Bob wagers 20 on option 0. -/
def stateA3 : EngineState := (vote 0 "bob@x.com" 1 0 20 stateA2).1

/-- Scenario A after Carol wagers 15 on option 1. -/
def stateA4 : EngineState := (vote 0 "carol@x.com" 1 1 15 stateA3).1

/-- C1: each winner of a successful resolution is credited
`floor(winner.wager / sum(winners' wagers) * totalPot)` (the general half,
via the appended ledger credits), and in the spec's scenario A — wagers 10
and 20 on the winning option, a losing wager of 15, pot 45 — the three
votes succeed, resolution succeeds with 2 winners, Alice is credited 15,
Bob 30, their balances end at 105 and 110, and the distributed total 15 +
30 equals the whole pot 45. -/
theorem C1_proportional_payout :
    (∀ (s : EngineState) (cid : Nat) (w : Int) (r : String)
       (res : ResolveResult) (c : Causa),
      (resolveCausa cid w r s).2 = .ok res →
      lookupCausa s.causae cid = some c →
      (c.votes.filter (fun v => v.option == w)).isEmpty = false →
      (resolveCausa cid w r s).1.ledger.log.map (fun en => (en.email, en.delta)) =
        s.ledger.log.map (fun en => (en.email, en.delta)) ++
          (c.votes.filter (fun v => v.option == w)).map
            (fun v => (v.email,
              shareOf v.wager
                ((List.map Vote.wager (c.votes.filter (fun v => v.option == w))).sum)
                c.totalPot))) ∧
    (vote 0 "alice@x.com" 1 0 10 stateA1).2 = .ok () ∧
    (vote 0 "bob@x.com" 1 0 20 stateA2).2 = .ok () ∧
    (vote 0 "carol@x.com" 1 1 15 stateA3).2 = .ok () ∧
    (resolveCausa 1 0 "dana@x.com" stateA4).2 = .ok ⟨1, "Pepperoni", 45, 2⟩ ∧
    shareOf 10 30 45 = 15 ∧ shareOf 20 30 45 = 30 ∧
    findBalance (resolveCausa 1 0 "dana@x.com" stateA4).1.ledger.balances
      "alice@x.com" = some 105 ∧
    findBalance (resolveCausa 1 0 "dana@x.com" stateA4).1.ledger.balances
      "bob@x.com" = some 110 ∧
    (resolveCausa 1 0 "dana@x.com" stateA4).1.ledger.log.map
        (fun en => (en.email, en.delta)) =
      [("alice@x.com", 10), ("bob@x.com", 20), ("carol@x.com", 15),
       ("alice@x.com", 15), ("bob@x.com", 30)] ∧
    (15 : Int) + 30 = 45 := by
  refine ⟨?_, rfl, rfl, rfl, rfl, by decide, by decide, by decide, by decide,
    by decide, by decide⟩
  intro s cid w r res c hok hl hw
  exact resolveCausa_winners_credited hok hl hw

/-- Witness for C1's general half at scenario A: applying the theorem to
the concrete resolution yields exactly the two proportional credit entries
(15 to Alice, 30 to Bob) after the three debits. -/
theorem C1_proportional_payout_witness :
    (resolveCausa 1 0 "dana@x.com" stateA4).1.ledger.log.map
        (fun en => (en.email, en.delta)) =
      stateA4.ledger.log.map (fun en => (en.email, en.delta)) ++
        (((stateA4.causae.head?).getD causaC7).votes.filter
            (fun v => v.option == (0 : Int))).map
          (fun v => (v.email,
            shareOf v.wager
              ((List.map Vote.wager
                (((stateA4.causae.head?).getD causaC7).votes.filter
                  (fun v => v.option == (0 : Int)))).sum)
              ((stateA4.causae.head?).getD causaC7).totalPot)) :=
  C1_proportional_payout.1 stateA4 1 0 "dana@x.com" ⟨1, "Pepperoni", 45, 2⟩
    ((stateA4.causae.head?).getD causaC7) rfl (by decide) (by decide)

/-! ## C8: repeated votes by the same voter -/

/-- Initial store for the double-vote scenario: one funded voter. -/
def stateB0 : EngineState :=
  { ledger := { balances := [("vic@x.com", 100)], log := [] },
    causae := [], commissiones := [] }

/-- Double-vote scenario after the causa is created. -/
def stateB1 : EngineState :=
  (createCausa "cre@x.com" "B" ["a", "b"] 1000 1 stateB0).1

/-- Double-vote scenario after Vic's first vote (wager 10 on option 0). -/
def stateB2 : EngineState := (vote 0 "vic@x.com" 1 0 10 stateB1).1

/-- C8: the engine does not reject a repeated vote — on a reachable OPEN
causa, two successive `vote` calls by the same email (valid option, wagers
10 then 12) both succeed, the votes list holds both entries, the voter's
balance is debited twice (100 − 10 − 12 = 78), and two separate debit rows
are logged. -/
theorem C8_second_vote_accepted :
    (vote 0 "vic@x.com" 1 0 10 stateB1).2 = .ok () ∧
    (vote 0 "vic@x.com" 1 0 12 stateB2).2 = .ok () ∧
    (vote 0 "vic@x.com" 1 0 12 stateB2).1.causae.map Causa.votes =
      [[{ email := "vic@x.com", option := 0, wager := 10 },
        { email := "vic@x.com", option := 0, wager := 12 }]] ∧
    findBalance (vote 0 "vic@x.com" 1 0 12 stateB2).1.ledger.balances
      "vic@x.com" = some 78 ∧
    (vote 0 "vic@x.com" 1 0 12 stateB2).1.ledger.log.map
        (fun en => (en.email, en.delta)) =
      [("vic@x.com", 10), ("vic@x.com", 12)] :=
  ⟨rfl, rfl, by decide, by decide, by decide⟩

/-! ## C5: what a successful debit does to balance and log -/

/-- Concrete ledger for the C5 counterexample: one account holding 10. -/
def ledC5 : Ledger := { balances := [("deb@x.com", 10)], log := [] }

/-- Counterexample to C5 as stated: a successful `debit` of 4 appends a log
row whose `Amount` is `4` — the positive magnitude, not the claimed signed
`-4` (`debit` pushes `amount` itself into the `Log` append). -/
theorem C5_counterexample_positive_log_delta :
    debit ledC5 "deb@x.com" 4 "w" =
      .ok { balances := [("deb@x.com", 6)],
            log := [{ email := "deb@x.com", delta := 4, note := "w",
                      balanceBefore := 10, processed := true }] } ∧
    ¬ ((4 : Int) = -4) :=
  ⟨rfl, by decide⟩

/-- C5 (amended): every successful `debit(email, amount, note)` subtracts
`amount` from the balance and appends exactly one ledger log row — whose
recorded `Amount` is the positive magnitude `amount` (the code does not
negate it for debits), with the prior balance in the `Previous Balance`
column; and the amount was necessarily positive. -/
theorem C5_debit_subtracts_and_logs_magnitude {led : Ledger} {e : String}
    {a : Int} {n : String} {led' : Ledger} (h : debit led e a n = .ok led') :
    findBalance led'.balances e = some (balanceOf led e - a) ∧
    led'.log = led.log ++ [⟨e, a, n, balanceOf led e, true⟩] ∧ 0 < a :=
  ⟨debit_balance_self h, debit_log h, (debit_ok_pos h).2⟩

/-- Witness for C5 at a concrete debit of 7 from a balance of 10. -/
theorem C5_debit_subtracts_and_logs_magnitude_witness :
    findBalance ({ balances := [("deb@x.com", 3)],
                   log := [{ email := "deb@x.com", delta := 7, note := "n",
                             balanceBefore := 10, processed := true }] } : Ledger).balances
        "deb@x.com" =
      some (balanceOf ledC5 "deb@x.com" - 7) ∧
    ({ balances := [("deb@x.com", 3)],
       log := [{ email := "deb@x.com", delta := 7, note := "n",
                 balanceBefore := 10, processed := true }] } : Ledger).log =
      ledC5.log ++ [⟨"deb@x.com", 7, "n", balanceOf ledC5 "deb@x.com", true⟩] ∧
    (0 : Int) < 7 :=
  @C5_debit_subtracts_and_logs_magnitude ledC5 "deb@x.com" 7 "n" _ rfl

/-! ## C2: Commissio creation (engine modelled from the spec) -/

/-- `getBalance` succeeds only on a nonempty email whose row exists. -/
theorem getBalance_ok_spec {led : Ledger} {e : String} {b : Int}
    (h : getBalance led e = .ok b) :
    e ≠ "" ∧ findBalance led.balances e = some b := by
  unfold getBalance at h
  by_cases h1 : e = ""
  · simp [h1] at h
  · rw [if_neg h1] at h
    cases hf : findBalance led.balances e with
    | none => rw [hf] at h; simp at h
    | some b' =>
      rw [hf] at h
      simp only [Except.ok.injEq] at h
      subst h
      exact ⟨h1, rfl⟩

/-- C2: Commissio creation fails with `InsufficientFunds` whenever the
creator's balance is below the reward, and on success the creator's balance
drops by exactly the reward (the escrow debit) while the record is appended
with status OPEN.  (The Commissio engine itself is modelled from the spec —
see `createCommissio`.) -/
theorem C2_commissio_create_escrow (s : EngineState) (creator title : String)
    (reward expiry : Int) {bal : Int}
    (hb : getBalance s.ledger creator = .ok bal) :
    (bal < reward →
      createCommissio creator title reward expiry s =
        (s, .error (.insufficientFunds bal))) ∧
    (∀ s' kid, createCommissio creator title reward expiry s = (s', .ok kid) →
      findBalance s'.ledger.balances creator = some (bal - reward) ∧
      s'.commissiones = s.commissiones ++
        [{ id := kid, title := title, creator := creator, reward := reward,
           expiry := expiry, status := "OPEN", assignee := "" }]) := by
  obtain ⟨hne, hf⟩ := getBalance_ok_spec hb
  constructor
  · intro hlt
    unfold createCommissio
    simp only [hb]
    rw [if_pos hlt]
  · intro s' kid h
    unfold createCommissio at h
    simp only [hb] at h
    by_cases hlt : bal < reward
    · rw [if_pos hlt] at h
      simp at h
    · rw [if_neg hlt] at h
      cases hd : debit s.ledger creator reward ("Commissio escrow: " ++ title) with
      | error e => rw [hd] at h; simp at h
      | ok led' =>
        rw [hd] at h
        simp only [Prod.mk.injEq, Except.ok.injEq] at h
        obtain ⟨h1, h2⟩ := h
        subst h2
        constructor
        · rw [← h1]
          have := debit_balance_self hd
          rwa [show balanceOf s.ledger creator = bal from by simp [balanceOf, hf]] at this
        · rw [← h1]

/-- Witness for C2: a creator holding 100 escrow-creates a reward-50 task;
the balance drops to 50 and the OPEN record is appended with id 1. -/
theorem C2_commissio_create_escrow_witness :
    findBalance
        (createCommissio "boss@x.com" "Fix bug" 50 1000
          { ledger := { balances := [("boss@x.com", 100)], log := [] },
            causae := [], commissiones := [] }).1.ledger.balances "boss@x.com" =
      some (100 - 50) ∧
    (createCommissio "boss@x.com" "Fix bug" 50 1000
        { ledger := { balances := [("boss@x.com", 100)], log := [] },
          causae := [], commissiones := [] }).1.commissiones =
      [] ++ [{ id := 1, title := "Fix bug", creator := "boss@x.com", reward := 50,
               expiry := 1000, status := "OPEN", assignee := "" }] :=
  (C2_commissio_create_escrow
      { ledger := { balances := [("boss@x.com", 100)], log := [] },
        causae := [], commissiones := [] }
      "boss@x.com" "Fix bug" 50 1000 rfl).2 _ 1 rfl

/-! ## C4: which handlers catch engine errors -/

/-- Whether a handler invocation produced a reply (`.ok`) rather than
letting an exception escape to `dispatchMessage`'s catch-all. -/
def isReply : Except Err String → Bool
  | .ok _ => true
  | .error _ => false

/-- A handler input whose every sub-parser failed, except a chosen
transfer parse; used to build concrete dispatch calls. -/
def mkInput (email : String) (t : Except Err ParsedTransfer) : HandlerInput :=
  { email := email, now := 0,
    pCausa := .error (.parseFailed "bad"), pVote := .error (.parseFailed "bad"),
    pResolve := .error (.parseFailed "bad"), pCommissio := .error (.parseFailed "bad"),
    pAccept := .error (.parseFailed "bad"), pComplete := .error (.parseFailed "bad"),
    pTrans := t }

/-- An empty backing store. -/
def stateEmpty : EngineState :=
  { ledger := { balances := [], log := [] }, causae := [], commissiones := [] }

/-- Counterexample to C4 as stated: the `QUOT` handler has no try/catch, so
when the acting account does not exist, `Wavebucks.getBalance`'s
`No account found` error escapes the handler (to be caught only by the
batch processor's catch-all in `dispatchMessage`). -/
theorem C4_counterexample_quot_lets_error_escape :
    runHandler .QUOT (mkInput "someone@x.com" (.error (.parseFailed "bad"))) stateEmpty =
      (stateEmpty, .error (.accountNotFound "someone@x.com")) ∧
    isReply (runHandler .QUOT (mkInput "someone@x.com" (.error (.parseFailed "bad")))
        stateEmpty).2 = false :=
  ⟨rfl, rfl⟩

/-- C4 (amended): every command handler except `QUOT` catches engine and
ledger errors itself and returns a rendered reply — for every input and
store state the dispatch result is `.ok`; only the `QUOT` handler can let
an exception escape to the batch processor. -/
theorem C4_handlers_catch_errors (cmd : Command) (hcmd : cmd ≠ .QUOT)
    (inp : HandlerInput) (s : EngineState) :
    isReply (runHandler cmd inp s).2 = true := by
  cases cmd with
  | QUOT => exact absurd rfl hcmd
  | HELP => rfl
  | DEFAULT => rfl
  | CAUSA =>
    cases hp : inp.pCausa with
    | error e => simp [runHandler, hp, isReply]
    | ok p => simp [runHandler, hp, isReply]
  | VOTE =>
    cases hp : inp.pVote with
    | error e => simp [runHandler, hp, isReply]
    | ok p =>
      rcases hv : vote inp.now inp.email p.causaId p.option p.wager s with ⟨s', r⟩
      cases r <;> simp [runHandler, hp, hv, isReply]
  | RESOLVE =>
    cases hp : inp.pResolve with
    | error e => simp [runHandler, hp, isReply]
    | ok p =>
      rcases hv : resolveCausa p.causaId p.winningOption inp.email s with ⟨s', r⟩
      cases r <;> simp [runHandler, hp, hv, isReply]
  | COMMISSIO_CMD =>
    cases hp : inp.pCommissio with
    | error e => simp [runHandler, hp, isReply]
    | ok p =>
      rcases hv : createCommissio inp.email p.title p.reward p.expiry s with ⟨s', r⟩
      cases r <;> simp [runHandler, hp, hv, isReply]
  | ACCEPT =>
    cases hp : inp.pAccept with
    | error e => simp [runHandler, hp, isReply]
    | ok p =>
      rcases hv : acceptCommissio inp.now inp.email p.commissionId s with ⟨s', r⟩
      cases r <;> simp [runHandler, hp, hv, isReply]
  | COMPLETE =>
    cases hp : inp.pComplete with
    | error e => simp [runHandler, hp, isReply]
    | ok p =>
      rcases hv : completeCommissio inp.email p.commissionId s with ⟨s', r⟩
      cases r <;> simp [runHandler, hp, hv, isReply]
  | TRANSFER =>
    cases hp : inp.pTrans with
    | error e => simp [runHandler, hp, isReply]
    | ok p =>
      cases hb : getBalance s.ledger inp.email with
      | error e => simp [runHandler, hp, hb, isReply]
      | ok bal =>
        by_cases hlt : bal < p.amount
        · simp [runHandler, hp, hb, hlt, isReply]
        · cases hd : debit s.ledger inp.email p.amount ("Transfer to " ++ p.toEmail) with
          | error e => simp [runHandler, hp, hb, hlt, hd, isReply]
          | ok led₁ =>
            cases hc : credit led₁ p.toEmail p.amount ("Transfer from " ++ inp.email) with
            | error e => simp [runHandler, hp, hb, hlt, hd, hc, isReply]
            | ok led₂ =>
              cases hb2 : getBalance led₂ inp.email with
              | error e => simp [runHandler, hp, hb, hlt, hd, hc, hb2, isReply]
              | ok nb => simp [runHandler, hp, hb, hlt, hd, hc, hb2, isReply]

/-- Witness for C4 at a concrete call: the `VOTE` handler replies (with an
error message) even when its parser fails on an empty store. -/
theorem C4_handlers_catch_errors_witness :
    isReply (runHandler .VOTE (mkInput "someone@x.com" (.error (.parseFailed "bad")))
        stateEmpty).2 = true :=
  C4_handlers_catch_errors .VOTE (by decide)
    (mkInput "someone@x.com" (.error (.parseFailed "bad"))) stateEmpty

/-! ## C9: the TRANSFER handler -/

theorem emailEq_false_symm {a b : String} (h : emailEq a b = false) :
    emailEq b a = false := by
  rcases hb : emailEq b a with _ | _
  · rfl
  · rw [emailEq_true_iff] at hb
    rw [emailEq_true_iff.mpr hb.symm] at h
    exact Bool.noConfusion h

/-- C9 (amended): with the sender's account on file, the `TRANSFER` handler
(T1) renders the insufficient-funds error and changes nothing when the
sender's balance is below the amount; and (T2) for a positive amount and a
(distinct, nonempty) recipient as the parser produces, it debits the sender
by exactly the amount, credits the recipient by exactly the same amount —
preserving the sum of the two balances — and renders the success reply.
(A zero amount — which the `\d+` transfer grammar admits — instead trips
`debit`'s positivity guard: error reply, no balance change; see the
counterexample.) -/
theorem C9_transfer_debits_and_credits (inp : HandlerInput) (s : EngineState)
    {rcpt : String} {amount : Int} (hp : inp.pTrans = .ok ⟨rcpt, amount⟩)
    {bal : Int} (hb : getBalance s.ledger inp.email = .ok bal) :
    (bal < amount →
      runHandler .TRANSFER inp s =
        (s, .ok (buildErrorMessage ("Transfer failed: " ++
          errText (.insufficientFunds bal))))) ∧
    (¬ bal < amount → 0 < amount → rcpt ≠ "" → emailEq inp.email rcpt = false →
      findBalance (runHandler .TRANSFER inp s).1.ledger.balances inp.email =
          some (bal - amount) ∧
      findBalance (runHandler .TRANSFER inp s).1.ledger.balances rcpt =
          some (balanceOf s.ledger rcpt + amount) ∧
      (bal - amount) + (balanceOf s.ledger rcpt + amount) =
          bal + balanceOf s.ledger rcpt ∧
      (runHandler .TRANSFER inp s).2 =
        .ok ("Transfer Complete To: " ++ rcpt ++ " Amount: " ++ toString amount ++
             " Your New Balance: " ++ toString (bal - amount))) := by
  obtain ⟨hne, hf⟩ := getBalance_ok_spec hb
  have hbalOf : balanceOf s.ledger inp.email = bal := by simp [balanceOf, hf]
  constructor
  · intro hlt
    unfold runHandler
    simp only [hp, hb]
    rw [if_pos hlt]
  · intro hge hpos hto hneq
    cases hd : debit s.ledger inp.email amount ("Transfer to " ++ rcpt) with
    | error e =>
      rw [debit_ok s.ledger _ hne hpos] at hd
      simp at hd
    | ok led₁ =>
      have hs1 : findBalance led₁.balances inp.email = some (bal - amount) := by
        rw [debit_balance_self hd, hbalOf]
      have hr1 : findBalance led₁.balances rcpt = findBalance s.ledger.balances rcpt :=
        debit_balance_ne hd hneq
      cases hc : credit led₁ rcpt amount ("Transfer from " ++ inp.email) with
      | error e =>
        rw [credit_ok led₁ _ hto hpos] at hc
        simp at hc
      | ok led₂ =>
        have hr2 : findBalance led₂.balances rcpt = some (balanceOf s.ledger rcpt + amount) := by
          rw [credit_balance_self hc]
          simp [balanceOf, hr1]
        have hs2 : findBalance led₂.balances inp.email = some (bal - amount) := by
          rw [credit_balance_ne hc (emailEq_false_symm hneq), hs1]
        have hg2 : getBalance led₂ inp.email = .ok (bal - amount) := by
          unfold getBalance
          rw [if_neg hne, hs2]
        have hrun : runHandler .TRANSFER inp s =
            ({ s with ledger := led₂ },
             .ok ("Transfer Complete To: " ++ rcpt ++ " Amount: " ++ toString amount ++
                  " Your New Balance: " ++ toString (bal - amount))) := by
          unfold runHandler
          simp only [hp, hb]
          rw [if_neg hge]
          simp only [hd, hc, hg2]
        rw [hrun]
        exact ⟨hs2, hr2, by ring, rfl⟩

/-- Concrete store for the C9 counterexample: the sender holds 5. -/
def stateC9 : EngineState :=
  { ledger := { balances := [("sender@x.com", 5)], log := [] },
    causae := [], commissiones := [] }

/-- Counterexample to C9 as stated: for the parseable command
`TRANSFER rcpt@x.com 0` the sender's balance (5) is not below the amount
(0), yet the handler does not debit the sender and credit the recipient —
`debit` rejects the zero amount, the handler renders an error reply, the
store is unchanged and the recipient's account is never created. -/
theorem C9_counterexample_zero_amount :
    ¬ ((5 : Int) < 0) ∧
    runHandler .TRANSFER (mkInput "sender@x.com" (.ok ⟨"rcpt@x.com", 0⟩)) stateC9 =
      (stateC9, .ok (buildErrorMessage ("Transfer failed: " ++ errText .invalidAmount))) ∧
    findBalance stateC9.ledger.balances "rcpt@x.com" = none :=
  ⟨by decide, rfl, rfl⟩

/-- Concrete store for the C9 witness: sender holds 50, recipient 7. -/
def stateC9b : EngineState :=
  { ledger := { balances := [("s@x.com", 50), ("r@x.com", 7)], log := [] },
    causae := [], commissiones := [] }

/-- Witness for C9: transferring 20 of the sender's 50 to the recipient
(holding 7) leaves 30 and 27 — their sum preserved — with the success
reply. -/
theorem C9_transfer_debits_and_credits_witness :
    findBalance (runHandler .TRANSFER (mkInput "s@x.com" (.ok ⟨"r@x.com", 20⟩))
          stateC9b).1.ledger.balances "s@x.com" = some (50 - 20) ∧
    findBalance (runHandler .TRANSFER (mkInput "s@x.com" (.ok ⟨"r@x.com", 20⟩))
          stateC9b).1.ledger.balances "r@x.com" =
        some (balanceOf stateC9b.ledger "r@x.com" + 20) ∧
    ((50 : Int) - 20) + (balanceOf stateC9b.ledger "r@x.com" + 20) =
        50 + balanceOf stateC9b.ledger "r@x.com" ∧
    (runHandler .TRANSFER (mkInput "s@x.com" (.ok ⟨"r@x.com", 20⟩)) stateC9b).2 =
      .ok ("Transfer Complete To: " ++ "r@x.com" ++ " Amount: " ++ toString (20 : Int) ++
           " Your New Balance: " ++ toString ((50 : Int) - 20)) :=
  (C9_transfer_debits_and_credits (mkInput "s@x.com" (.ok ⟨"r@x.com", 20⟩))
      stateC9b rfl rfl).2 (by decide) (by decide) (by decide) (by decide)

/-- Witness for C10 at the concrete vote-less causa: the creator's own
well-formed resolve attempt fails and leaves the store untouched. -/
theorem C10_empty_causa_never_resolves_witness :
    (resolveCausa 1 0 "alice@x.com" statePotZero).1 = statePotZero ∧
      lookupCausa (resolveCausa 1 0 "alice@x.com" statePotZero).1.causae 1 = some causaPotZero ∧
      ∃ e, (resolveCausa 1 0 "alice@x.com" statePotZero).2 = .error e :=
  @C10_empty_causa_never_resolves statePotZero 1 causaPotZero (by decide) (by decide)
    (by decide) (by decide) 0 "alice@x.com"

end Wavebucks
